import Mathlib

/-!
Shallow embedding of the client-side AI-orchestration core of the physics
study application: the credential resolver, the remote-call orchestration
layer with its primary/fallback model strategy and error classification
(`src/unnamed/part_000`, second service variant, lines 145-364), the
App-level explanation fetch and its caches (`src/App.tsx`), and the PCM
audio decoder (`src/components/VideoResources.tsx`, AudioPlayer variant).

Remote generative calls are external effects: each call site is modelled by
an environment field recording the outcome the remote oracle would give at
that call (a response whose `text` may be absent, or a thrown error with a
message).  JavaScript `string | null | undefined` values are `Option String`
with JS truthiness (`none` and `""` falsy).  Thrown errors are `Except`
error values carrying the message string.
-/

namespace PhysicsAI

/-- Category enum from `src/types.ts`. -/
inductive Category where
  | OSCILLATIONS
  | WAVES_OPTICS
  | QUANTUM
  | THERMODYNAMICS
  | NUCLEAR
deriving DecidableEq, Repr

/-- Question entity from `src/types.ts`. -/
structure Question where
  id : Nat
  text : String
  category : Category
  hasProblem : Option Bool := none
deriving DecidableEq, Repr

/-- ExplanationState from `src/types.ts`: `loading`, nullable `content`,
nullable `error`. -/
structure ExplanationState where
  loading : Bool
  content : Option String
  error : Option String
deriving DecidableEq, Repr

/-- VideoRecommendation type tag from `src/types.ts`. -/
inductive VideoType where
  | lecture
  | problem_solving
  | experiment
deriving DecidableEq, Repr

/-- VideoRecommendation from `src/types.ts`. -/
structure VideoRecommendation where
  query : String
  description : String
  type : VideoType
deriving DecidableEq, Repr

/-- QuizQuestion from `src/types.ts`. -/
structure QuizQuestion where
  question : String
  options : List String
  correctAnswer : Nat
  explanation : String
deriving DecidableEq, Repr

/-- JS truthiness of a `string | null | undefined` value: `null`,
`undefined` and `""` are falsy. -/
def strTruthy : Option String → Bool
  | none => false
  | some s => !(s == "")

/-- JS `a || b` where `a : string | null | undefined` and `b : string`. -/
def jsOrElse : Option String → String → String
  | none, d => d
  | some s, d => if s = "" then d else s

/-- The two credential sources: `localStorage.getItem('USER_GEMINI_KEY')`
and the build-time `process.env.API_KEY`, each possibly absent. -/
structure KeyStore where
  userKey : Option String
  envKey : Option String
deriving DecidableEq, Repr

/-- `getStoredApiKey` (part_000 lines 145-150):
`localStorage.getItem('USER_GEMINI_KEY') || process.env.API_KEY || ''`. -/
def getStoredApiKey (ks : KeyStore) : String :=
  jsOrElse ks.userKey (jsOrElse ks.envKey "")

/-- `saveApiKey` (part_000 lines 152-156):
`localStorage.setItem('USER_GEMINI_KEY', key)` — the key is stored as
given, with no transformation. -/
def saveApiKey (key : String) (ks : KeyStore) : KeyStore :=
  { ks with userKey := some key }

/-- Contiguous-substring test on character lists, used to model JS
`String.prototype.includes`. -/
def charSub (needle : List Char) : List Char → Bool
  | [] => needle.isEmpty
  | c :: rest => needle.isPrefixOf (c :: rest) || charSub needle rest

/-- JS `hay.includes(needle)`. -/
def strIncludes (hay needle : String) : Bool :=
  charSub needle.data hay.data

/-- JS `toLowerCase`, character by character.  The classification needles
are all ASCII, for which this folding agrees with JS. -/
def jsToLower (s : String) : String :=
  ⟨s.data.map Char.toLower⟩

/-- `handleApiError` (part_000 lines 167-184): classifies a failure's
string rendering into one of the four user-facing messages (missing
credential, access denied, rate limited, connectivity) and returns the
message it throws. -/
def handleApiError (ks : KeyStore) (error : String) : String :=
  if getStoredApiKey ks = "" then
    "API Key отсутствует. Нажмите на иконку ключа 🔑 вверху, чтобы добавить его."
  else if strIncludes (jsToLower error) "403" || strIncludes (jsToLower error) "permission denied"
      || strIncludes (jsToLower error) "access denied" then
    "Ошибка доступа (403). Попробуйте обновить API ключ."
  else if strIncludes (jsToLower error) "429" || strIncludes (jsToLower error) "quota" then
    "Превышен лимит запросов. Подождите минуту."
  else
    "Ошибка соединения с AI. Проверьте интернет или VPN."

/-- Outcome of one remote `generateContent` text call: a response whose
`text` field may be absent, or a thrown error with its string rendering. -/
inductive RemoteOutcome where
  | ok (text : Option String)
  | failure (message : String)
deriving DecidableEq, Repr

/-- A remote model call as issued by the explanation path: model id plus
the `thinkingConfig.thinkingBudget` of its generation config. -/
structure ModelCall where
  model : String
  thinkingBudget : Option Nat
deriving DecidableEq, Repr

/-- The primary explanation attempt: `gemini-3-pro-preview` with
`thinkingBudget: 1024` (part_000 lines 208-212). -/
def primaryCall : ModelCall :=
  { model := "gemini-3-pro-preview", thinkingBudget := some 1024 }

/-- The fallback explanation attempt: `gemini-3-flash-preview` with
`thinkingBudget: 0` (part_000 lines 219-223). -/
def fallbackCall : ModelCall :=
  { model := "gemini-3-flash-preview", thinkingBudget := some 0 }

/-- Environment of one `generateExplanation` invocation: the credential
sources and what the remote oracle answers at the primary and at the
fallback call site. -/
structure GenAiEnv where
  keys : KeyStore
  primaryOutcome : RemoteOutcome
  fallbackOutcome : RemoteOutcome

/-- Result of `generateExplanation` together with the list of remote model
calls it issued, in order. -/
structure GenRun where
  result : Except String String
  calls : List ModelCall

/-- `generateExplanation` (part_000 lines 187-230).  Throws the missing-key
message if no credential resolves; otherwise tries the primary model and,
on any primary failure, retries once with the fallback model; a fallback
failure is classified by `handleApiError`.  A present `text` is returned
through JS `||` with the placeholder `"Ошибка получения ответа."`. -/
def generateExplanation (env : GenAiEnv) : GenRun :=
  if getStoredApiKey env.keys = "" then
    { result := .error "API Key отсутствует. Введите его в настройках.", calls := [] }
  else
    match env.primaryOutcome with
    | .ok t =>
      { result := .ok (jsOrElse t "Ошибка получения ответа."), calls := [primaryCall] }
    | .failure _ =>
      match env.fallbackOutcome with
      | .ok t =>
        { result := .ok (jsOrElse t "Ошибка получения ответа."),
          calls := [primaryCall, fallbackCall] }
      | .failure e =>
        { result := .error (handleApiError env.keys e),
          calls := [primaryCall, fallbackCall] }

/-- `inlineData` blob of a response part: its `data` field may be absent. -/
structure InlineData where
  data : Option String
deriving DecidableEq, Repr

/-- A part of a TTS candidate's content. -/
structure ContentPart where
  inlineData : Option InlineData
deriving DecidableEq, Repr

/-- Content of a TTS candidate: its `parts` array may be absent. -/
structure CandidateContent where
  parts : Option (List ContentPart)
deriving DecidableEq, Repr

/-- One candidate of a TTS response. -/
structure Candidate where
  content : Option CandidateContent
deriving DecidableEq, Repr

/-- The optional-chaining access
`candidates[0].content?.parts?.[0]?.inlineData?.data` applied to one
candidate (part_000 line 278). -/
def candidateAudioData (c : Candidate) : Option String :=
  (((c.content.bind CandidateContent.parts).bind List.head?).bind
    ContentPart.inlineData).bind InlineData.data

/-- Outcome of the remote TTS call: a response whose `candidates` array may
be absent, or a thrown error. -/
inductive TtsOutcome where
  | ok (candidates : Option (List Candidate))
  | failure (message : String)
deriving DecidableEq, Repr

/-- Environment of one `generateAudioExplanation` invocation. -/
structure AudioEnv where
  keys : KeyStore
  scriptOutcome : RemoteOutcome
  ttsOutcome : TtsOutcome

/-- Result of `generateAudioExplanation`: its return or thrown message, the
audio cache after the call, and which of the two remote stages ran. -/
structure AudioRun where
  result : Except String String
  cache : Nat → Option String
  scriptCalled : Bool
  ttsCalled : Bool

/-- `generateAudioExplanation` (part_000 lines 233-287).  Returns the cached
payload on a cache hit.  Otherwise, inside one try/catch whose handler is
`handleApiError`: requires a credential, generates the script, throws
`"Failed to generate script"` when the script text is falsy, calls TTS,
requires a non-empty candidate list and a truthy inline audio payload, and
only then writes the cache.  Internally thrown `Error`s reach
`handleApiError` as their `toString` rendering `"Error: <message>"`. -/
def generateAudioExplanation (env : AudioEnv) (cache : Nat → Option String)
    (q : Question) : AudioRun :=
  match cache q.id with
  | some cached => { result := .ok cached, cache := cache, scriptCalled := false, ttsCalled := false }
  | none =>
    if getStoredApiKey env.keys = "" then
      { result := .error (handleApiError env.keys "Error: API Key отсутствует"),
        cache := cache, scriptCalled := false, ttsCalled := false }
    else
      match env.scriptOutcome with
      | .failure e =>
        { result := .error (handleApiError env.keys e),
          cache := cache, scriptCalled := true, ttsCalled := false }
      | .ok textToSpeak =>
        if !strTruthy textToSpeak then
          { result := .error (handleApiError env.keys "Error: Failed to generate script"),
            cache := cache, scriptCalled := true, ttsCalled := false }
        else
          match env.ttsOutcome with
          | .failure e =>
            { result := .error (handleApiError env.keys e),
              cache := cache, scriptCalled := true, ttsCalled := true }
          | .ok candidates =>
            match candidates with
            | none =>
              { result := .error (handleApiError env.keys "Error: No candidates"),
                cache := cache, scriptCalled := true, ttsCalled := true }
            | some [] =>
              { result := .error (handleApiError env.keys "Error: No candidates"),
                cache := cache, scriptCalled := true, ttsCalled := true }
            | some (c :: _) =>
              let audioData := candidateAudioData c
              if !strTruthy audioData then
                { result := .error (handleApiError env.keys "Error: No audio data"),
                  cache := cache, scriptCalled := true, ttsCalled := true }
              else
                let d := audioData.getD ""
                { result := .ok d,
                  cache := fun i => if i = q.id then some d else cache i,
                  scriptCalled := true, ttsCalled := true }

/-- Environment of one `getVideoRecommendations` invocation.  The remote
response text is an opaque JSON payload; `JSON.parse` of a truthy response
text is modelled by the oracle fields `parsed` (its value when it succeeds)
and `parseFails` (whether it throws). -/
structure VideoEnv where
  keys : KeyStore
  remoteOutcome : RemoteOutcome
  parsed : List VideoRecommendation
  parseFails : Bool

/-- `getVideoRecommendations` (part_000 lines 290-312): best effort — a
missing credential returns `[]`, any thrown failure (remote call or
`JSON.parse`) is caught and yields `[]`; a falsy response text parses the
literal `"[]"`. -/
def getVideoRecommendations (env : VideoEnv) : List VideoRecommendation :=
  if getStoredApiKey env.keys = "" then []
  else
    match env.remoteOutcome with
    | .failure _ => []
    | .ok t =>
      if strTruthy t then (if env.parseFails then [] else env.parsed)
      else []

/-- Environment of one `generateQuiz` invocation, with the same opaque
`JSON.parse` modelling as `VideoEnv`. -/
structure QuizEnv where
  keys : KeyStore
  remoteOutcome : RemoteOutcome
  parsed : List QuizQuestion
  parseFails : Bool

/-- `generateQuiz` (part_000 lines 315-352): inside one try/catch whose
handler is `handleApiError`: requires a credential, issues the structured
quiz call, and parses `response.text || "[]"`. -/
def generateQuiz (env : QuizEnv) : Except String (List QuizQuestion) :=
  if getStoredApiKey env.keys = "" then
    .error (handleApiError env.keys "Error: API Key отсутствует")
  else
    match env.remoteOutcome with
    | .failure e => .error (handleApiError env.keys e)
    | .ok t =>
      if strTruthy t then
        (if env.parseFails then .error (handleApiError env.keys "Error: JSON parse failed")
         else .ok env.parsed)
      else .ok []

/-- The stateful chat handle created by `ai.chats.create`: its model id and
the system instruction embedding the question text. -/
structure ChatSession where
  model : String
  systemInstruction : String
deriving DecidableEq, Repr

/-- `createChatSession` (part_000 lines 355-364): throws `"API Key missing"`
when no credential resolves, else synchronously constructs the handle. -/
def createChatSession (ks : KeyStore) (q : Question) : Except String ChatSession :=
  if getStoredApiKey ks = "" then .error "API Key missing"
  else .ok { model := "gemini-3-flash-preview",
             systemInstruction := "Ты помощник по физике. Тема: \"" ++ q.text ++ "\". Отвечай кратко." }

/-- `QUESTIONS.find(q => q.id === id)` (App.tsx line 63). -/
def findQuestion (questions : List Question) (id : Nat) : Option Question :=
  questions.find? (fun q => q.id == id)

/-- The App component's explanation-related state: the per-question
explanation cache (`useState<Record<number, string>>`, App.tsx line 47, a
JS record where an absent property reads as `undefined`) and the displayed
`ExplanationState` (line 48). -/
structure AppState where
  cache : Nat → Option String
  explanation : ExplanationState

/-- Initial `ExplanationState`
`{ loading: false, content: null, error: null }` (App.tsx line 48). -/
def initialExplanationState : ExplanationState :=
  { loading := false, content := none, error := none }

/-- Result of one completed `fetchExplanation` call: the App state after
the call has resolved, and whether a remote `generateExplanation` call was
issued. -/
structure FetchRun where
  state : AppState
  remoteCalled : Bool

/-- `fetchExplanation` (App.tsx lines 55-71), run to completion.  A truthy
cached entry (JS truthiness of `cache[id]`) short-circuits unless `force`;
otherwise the state passes through `{loading:true, content:null,
error:null}`, an unknown id throws `"Question not found"`, and the awaited
`generateExplanation` result either writes the cache and shows content, or
its message is shown as the error. -/
def fetchExplanation (env : GenAiEnv) (questions : List Question)
    (st : AppState) (id : Nat) (force : Bool) : FetchRun :=
  if !force && strTruthy (st.cache id) then
    { state := { st with explanation := { loading := false, content := st.cache id, error := none } },
      remoteCalled := false }
  else
    match findQuestion questions id with
    | none =>
      { state := { st with explanation := { loading := false, content := none, error := some "Question not found" } },
        remoteCalled := false }
    | some _ =>
      match (generateExplanation env).result with
      | .ok r =>
        { state := { cache := fun i => if i = id then some r else st.cache i,
                     explanation := { loading := false, content := some r, error := none } },
          remoteCalled := true }
      | .error m =>
        { state := { st with explanation := { loading := false, content := none, error := some m } },
          remoteCalled := true }

/-- Interleaving model of the App's selection/fetch flow.  `selectedId`,
the explanation cache and the displayed `ExplanationState` are the React
state; `pending` lists the question ids of outstanding (started, not yet
resolved) explanation requests. -/
structure SysState where
  selectedId : Option Nat
  cache : Nat → Option String
  explanation : ExplanationState
  pending : List Nat

/-- The initial system state: nothing selected, empty cache, initial
explanation state, no outstanding request. -/
def sysInit : SysState :=
  { selectedId := none, cache := fun _ => none,
    explanation := initialExplanationState, pending := [] }

/-- The synchronous part of `fetchExplanation(id)` (App.tsx lines 55-64): a
truthy cache entry is applied at once; otherwise the loading state is set
and — when the id exists — a request becomes outstanding; an unknown id
throws synchronously into the local catch. -/
def startFetch (questions : List Question) (s : SysState) (id : Nat)
    (force : Bool) : SysState :=
  if !force && strTruthy (s.cache id) then
    { s with explanation := { loading := false, content := s.cache id, error := none } }
  else
    match findQuestion questions id with
    | none =>
      { s with explanation := { loading := false, content := none, error := some "Question not found" } }
    | some _ =>
      { s with explanation := { loading := true, content := none, error := none },
               pending := s.pending ++ [id] }

/-- Events of the interleaving model: the user selects a question
(`handleSelectQuestion`, App.tsx lines 73-84, which sets `selectedId` and
starts a non-forced fetch), or an outstanding request for `id` resolves
with a success text or a thrown message. -/
inductive UiEvent where
  | select (id : Nat)
  | resolveOk (id : Nat) (text : String)
  | resolveErr (id : Nat) (message : String)

/-- One transition.  The resolution continuations (App.tsx lines 65-70)
write the cache and the displayed state unconditionally: the code performs
no comparison of the resolved request's id with `selectedId`. -/
def step (questions : List Question) (s : SysState) : UiEvent → SysState
  | .select id =>
    startFetch questions { s with selectedId := some id } id false
  | .resolveOk id text =>
    if s.pending.contains id then
      { s with cache := fun i => if i = id then some text else s.cache i,
               explanation := { loading := false, content := some text, error := none },
               pending := s.pending.erase id }
    else s
  | .resolveErr id message =>
    if s.pending.contains id then
      { s with explanation := { loading := false, content := none, error := some message },
               pending := s.pending.erase id }
    else s

/-- Run a sequence of events from a state. -/
def runEvents (questions : List Question) (s : SysState) (evs : List UiEvent) : SysState :=
  evs.foldl (step questions) s

/-- The tri-state invariant claimed for `ExplanationState`: when not
loading, exactly one of `content` and `error` is non-null. -/
def explanationTriState (e : ExplanationState) : Prop :=
  e.loading = false →
    ((e.content ≠ none ∧ e.error = none) ∨ (e.content = none ∧ e.error ≠ none))

instance (e : ExplanationState) : Decidable (explanationTriState e) := by
  unfold explanationTriState
  infer_instance

/-- `decodeBase64` (VideoResources.tsx AudioPlayer variant, lines 331-339):
the decoded binary string's char codes are written one by one into a
`Uint8Array`, whose element store truncates modulo 256. -/
def decodeBase64 (charCodes : List Nat) : List Nat :=
  charCodes.map (fun c => c % 256)

/-- Consecutive (low, high) byte pairs of a byte sequence; a trailing
unpaired byte is dropped, as the `slice(0, validLen)` /
`new Int16Array(...)` reinterpretation does for an odd byte count. -/
def pairBytes : List Nat → List (Nat × Nat)
  | lo :: hi :: rest => (lo, hi) :: pairBytes rest
  | _ => []

/-- The signed 16-bit value an `Int16Array` reads from a little-endian
(low, high) byte pair. -/
def int16FromBytes (lo hi : Nat) : Int :=
  if lo + 256 * hi < 32768 then ((lo + 256 * hi : Nat) : Int)
  else ((lo + 256 * hi : Nat) : Int) - 65536

/-- The buffer produced by `ctx.createBuffer(1, frameCount, 24000)` and the
fill loop: channel count, sample rate, and the single channel's samples.
An `int16 / 32768.0` quotient is exactly representable in the JS floats the
channel holds (a 16-bit integer times 2 to the -15), so the samples are
embedded as exact rationals. -/
structure JsAudioBuffer where
  numberOfChannels : Nat
  sampleRate : Nat
  channelData : List ℚ
deriving DecidableEq

/-- `ctx.createBuffer(channelCount, frameCount, sampleRate)` followed by
the sample fill loop.  The Web Audio `createBuffer` throws
`NotSupportedError` when the requested `length` is outside its nominal
range — in particular when `frameCount` is 0; otherwise the buffer holds
the given channel's samples. -/
def createBuffer (channelCount frameCount sampleRate : Nat) (samples : List ℚ) :
    Except String JsAudioBuffer :=
  if frameCount = 0 then .error "NotSupportedError"
  else .ok { numberOfChannels := channelCount, sampleRate := sampleRate,
             channelData := samples }

/-- `processAudioData` (VideoResources.tsx AudioPlayer variant, lines
348-372) on the char codes of the base64-decoded binary string: truncate to
bytes, reinterpret as little-endian signed 16-bit samples dropping an odd
trailing byte, normalize each sample by 32768.0, and build the one-channel
24000 Hz buffer through `createBuffer` — which throws when the sample count
is 0, i.e. when fewer than 2 bytes were decoded. -/
def processAudioData (charCodes : List Nat) : Except String JsAudioBuffer :=
  let bytes := decodeBase64 charCodes
  let dataInt16 := (pairBytes bytes).map (fun p => int16FromBytes p.1 p.2)
  createBuffer 1 dataInt16.length 24000
    (dataInt16.map (fun (v : Int) => (v : ℚ) / 32768))

/-! ## Helper lemmas -/

theorem strTruthy_some_of_ne {r : String} (h : r ≠ "") : strTruthy (some r) = true := by
  simp [strTruthy, h]

theorem ne_none_of_strTruthy {o : Option String} (h : strTruthy o = true) : o ≠ none := by
  cases o with
  | none => simp [strTruthy] at h
  | some s => exact Option.some_ne_none s

theorem jsOrElse_of_falsy {o : Option String} (h : strTruthy o = false) (d : String) :
    jsOrElse o d = d := by
  cases o with
  | none => rfl
  | some s =>
    simp only [strTruthy, Bool.not_eq_false', beq_iff_eq] at h
    simp [jsOrElse, h]

theorem jsOrElse_ne_empty (o : Option String) {d : String} (hd : d ≠ "") :
    jsOrElse o d ≠ "" := by
  cases o with
  | none => exact hd
  | some s =>
    by_cases hs : s = "" <;> simp [jsOrElse, hs, hd]

theorem getD_ne_empty_of_strTruthy {o : Option String} (h : strTruthy o = true) :
    o.getD "" ≠ "" := by
  cases o with
  | none => simp [strTruthy] at h
  | some s =>
    simp only [strTruthy, Bool.not_eq_true', beq_eq_false_iff_ne, ne_eq] at h
    simpa using h

theorem generateExplanation_ok_ne_empty (env : GenAiEnv) {r : String}
    (h : (generateExplanation env).result = .ok r) : r ≠ "" := by
  unfold generateExplanation at h
  split at h
  · exact absurd h (by simp)
  · cases hp : env.primaryOutcome with
    | ok t =>
      rw [hp] at h
      simp only [Except.ok.injEq] at h
      exact h ▸ jsOrElse_ne_empty t (by decide)
    | failure p =>
      rw [hp] at h
      cases hf : env.fallbackOutcome with
      | ok t =>
        rw [hf] at h
        simp only [Except.ok.injEq] at h
        exact h ▸ jsOrElse_ne_empty t (by decide)
      | failure f =>
        rw [hf] at h
        exact absurd h (by simp)

/-! ## Claim theorems -/

/-- Claim C3: on a cache miss `generateExplanation` attempts the primary
model first; on any primary failure it retries exactly once with the
fallback model's reduced-effort configuration; a classified error is raised
if and only if the fallback also fails, and that error is the
classification of the fallback failure alone — the primary failure is
never surfaced. -/
theorem generateExplanation_fallback_chain (env : GenAiEnv)
    (hk : getStoredApiKey env.keys ≠ "") :
    ((∃ t, env.primaryOutcome = .ok t) →
      (generateExplanation env).calls = [primaryCall] ∧
      ∃ r, (generateExplanation env).result = .ok r) ∧
    ((∃ p, env.primaryOutcome = .failure p) →
      (generateExplanation env).calls = [primaryCall, fallbackCall]) ∧
    ((∃ m, (generateExplanation env).result = .error m) ↔
      ((∃ p, env.primaryOutcome = .failure p) ∧ (∃ f, env.fallbackOutcome = .failure f))) ∧
    (∀ p f, env.primaryOutcome = .failure p → env.fallbackOutcome = .failure f →
      (generateExplanation env).result = .error (handleApiError env.keys f)) := by
  unfold generateExplanation
  rw [if_neg hk]
  cases env.primaryOutcome with
  | ok t => simp
  | failure p =>
    cases env.fallbackOutcome with
    | ok t => simp
    | failure f => simp

/-- Witness for C3 at a concrete environment: with a credential present, a
primary failure followed by a fallback failure surfaces the classification
of the fallback failure. -/
theorem generateExplanation_fallback_chain_witness :
    (generateExplanation ⟨⟨none, some "k"⟩, .failure "HTTP 500", .failure "HTTP 429 quota"⟩).result
      = .error (handleApiError ⟨none, some "k"⟩ "HTTP 429 quota") :=
  (generateExplanation_fallback_chain
      ⟨⟨none, some "k"⟩, .failure "HTTP 500", .failure "HTTP 429 quota"⟩
      (by decide)).2.2.2 "HTTP 500" "HTTP 429 quota" rfl rfl

/-- Claim C5: with no resolvable credential, `generateExplanation`,
`generateQuiz` and `createChatSession` each raise a missing-credential
error, while `getVideoRecommendations` returns the empty sequence without
raising. -/
theorem missing_credential_paths (envG : GenAiEnv) (envQ : QuizEnv) (envV : VideoEnv)
    (ks : KeyStore) (q : Question)
    (hG : getStoredApiKey envG.keys = "")
    (hQ : getStoredApiKey envQ.keys = "")
    (hV : getStoredApiKey envV.keys = "")
    (hk : getStoredApiKey ks = "") :
    (generateExplanation envG).result
      = .error "API Key отсутствует. Введите его в настройках." ∧
    generateQuiz envQ
      = .error "API Key отсутствует. Нажмите на иконку ключа 🔑 вверху, чтобы добавить его." ∧
    createChatSession ks q = .error "API Key missing" ∧
    getVideoRecommendations envV = [] := by
  refine ⟨?_, ?_, ?_, ?_⟩
  · unfold generateExplanation
    rw [if_pos hG]
  · unfold generateQuiz handleApiError
    rw [if_pos hQ, if_pos hQ]
  · unfold createChatSession
    rw [if_pos hk]
  · unfold getVideoRecommendations
    rw [if_pos hV]

/-- Witness for C5 at the concrete empty key store. -/
theorem missing_credential_paths_witness :
    getStoredApiKey ⟨none, none⟩ = "" ∧
    (generateExplanation ⟨⟨none, none⟩, .ok (some "text"), .ok (some "text")⟩).result
      = .error "API Key отсутствует. Введите его в настройках." ∧
    getVideoRecommendations ⟨⟨none, none⟩, .ok (some "[]"), [], false⟩ = [] :=
  ⟨by decide,
   (missing_credential_paths ⟨⟨none, none⟩, .ok (some "text"), .ok (some "text")⟩
      ⟨⟨none, none⟩, .ok (some "[]"), [], false⟩
      ⟨⟨none, none⟩, .ok (some "[]"), [], false⟩
      ⟨none, none⟩ ⟨1, "Q", .QUANTUM, none⟩
      (by decide) (by decide) (by decide) (by decide)).1,
   (missing_credential_paths ⟨⟨none, none⟩, .ok (some "text"), .ok (some "text")⟩
      ⟨⟨none, none⟩, .ok (some "[]"), [], false⟩
      ⟨⟨none, none⟩, .ok (some "[]"), [], false⟩
      ⟨none, none⟩ ⟨1, "Q", .QUANTUM, none⟩
      (by decide) (by decide) (by decide) (by decide)).2.2.2⟩

/-- Trimming as the spec's `setCredential` contract describes it: leading
and trailing whitespace removed.  Stated from the spec's words, to compare
with what `saveApiKey` actually persists. -/
def trimSpec (s : String) : String :=
  ⟨((s.data.dropWhile Char.isWhitespace).reverse.dropWhile Char.isWhitespace).reverse⟩

/-- Counterexample to C8 as stated: `saveApiKey` persists the key verbatim,
so saving `" k1 "` makes the resolver return `" k1 "`, not the trimmed
`"k1"`. -/
theorem saveApiKey_does_not_trim :
    getStoredApiKey (saveApiKey " k1 " ⟨none, none⟩) = " k1 " ∧
    trimSpec " k1 " = "k1" ∧
    getStoredApiKey (saveApiKey " k1 " ⟨none, none⟩) ≠ trimSpec " k1 " := by
  refine ⟨by decide, ?_, ?_⟩ <;> decide

/-- Claim C8 (amended): `getStoredApiKey` returns the user-entered value
when present and non-empty, else the build-configured default when present
and non-empty, else the empty string; and `saveApiKey v` persists `v`
verbatim (no trimming), so a subsequent `getStoredApiKey` returns `v`
itself whenever `v` is non-empty. -/
theorem credential_resolver_contract (ks : KeyStore) (v : String) (hv : v ≠ "") :
    (∀ u, ks.userKey = some u → u ≠ "" → getStoredApiKey ks = u) ∧
    (strTruthy ks.userKey = false →
      ∀ d, ks.envKey = some d → d ≠ "" → getStoredApiKey ks = d) ∧
    (strTruthy ks.userKey = false → strTruthy ks.envKey = false →
      getStoredApiKey ks = "") ∧
    getStoredApiKey (saveApiKey v ks) = v := by
  refine ⟨?_, ?_, ?_, ?_⟩
  · intro u hu hne
    unfold getStoredApiKey
    rw [hu]
    simp [jsOrElse, hne]
  · intro hfalsy d hd hne
    unfold getStoredApiKey
    rw [jsOrElse_of_falsy hfalsy, hd]
    simp [jsOrElse, hne]
  · intro hu he
    unfold getStoredApiKey
    rw [jsOrElse_of_falsy hu, jsOrElse_of_falsy he]
  · unfold getStoredApiKey saveApiKey
    simp [jsOrElse, hv]

/-- Witness for C8 (amended) at a concrete store and key value. -/
theorem credential_resolver_contract_witness :
    (" k1 " : String) ≠ "" ∧
    getStoredApiKey (saveApiKey " k1 " ⟨some "", some "envkey"⟩) = " k1 " :=
  ⟨by decide,
   (credential_resolver_contract ⟨some "", some "envkey"⟩ " k1 " (by decide)).2.2.2⟩

/-- Counterexample to C9 as stated: the initial `ExplanationState`
`{ loading: false, content: null, error: null }` has `loading = false` yet
neither `content` nor `error` non-null. -/
theorem initial_explanation_state_violates_triState :
    ¬ explanationTriState initialExplanationState := by decide

/-- Claim C9 (amended): every state produced by a completed
`fetchExplanation` transition satisfies the tri-state invariant — exactly
one of `content` and `error` is non-null when `loading` is false; the
initial state, which has both null, is the sole exception. -/
theorem fetchExplanation_triState_invariant (env : GenAiEnv) (questions : List Question)
    (st : AppState) (id : Nat) (force : Bool) :
    explanationTriState ((fetchExplanation env questions st id force).state.explanation) := by
  unfold fetchExplanation explanationTriState
  split
  case isTrue h =>
    intro _
    left
    refine ⟨?_, rfl⟩
    exact ne_none_of_strTruthy (Bool.and_elim_right h)
  case isFalse h =>
    cases hfq : findQuestion questions id with
    | none => intro _; right; exact ⟨rfl, by simp⟩
    | some q =>
      cases hr : (generateExplanation env).result with
      | ok r => intro _; left; exact ⟨by simp, rfl⟩
      | error m => intro _; right; exact ⟨rfl, by simp⟩

/-- Claim C1: two successive `fetchExplanation` calls for the same id with
`force = false` issue at most one remote call — when the first call
succeeds (storing its non-empty result in the cache), the second call makes
no remote call and displays exactly the cached text. -/
theorem fetchExplanation_second_call_cached (env : GenAiEnv) (questions : List Question)
    (st : AppState) (id : Nat) (r : String)
    (hq : findQuestion questions id ≠ none)
    (henv : (generateExplanation env).result = .ok r) :
    (fetchExplanation env questions
        (fetchExplanation env questions st id false).state id false).remoteCalled = false ∧
    (fetchExplanation env questions st id false).state.cache id ≠ none ∧
    ((fetchExplanation env questions st id false).remoteCalled = true →
      (fetchExplanation env questions st id false).state.cache id = some r) ∧
    (fetchExplanation env questions
        (fetchExplanation env questions st id false).state id false).state.explanation =
      { loading := false,
        content := (fetchExplanation env questions st id false).state.cache id,
        error := none } := by
  have hr : r ≠ "" := generateExplanation_ok_ne_empty env henv
  by_cases hc : strTruthy (st.cache id) = true
  · -- first call is already a cache hit: no remote call at all
    have hfirst : fetchExplanation env questions st id false =
        { state := { st with explanation :=
            { loading := false, content := st.cache id, error := none } },
          remoteCalled := false } := by
      unfold fetchExplanation
      rw [if_pos (by simpa using hc)]
    rw [hfirst]
    have hsecond : fetchExplanation env questions
        { st with explanation := { loading := false, content := st.cache id, error := none } }
        id false =
        { state := { st with explanation :=
            { loading := false, content := st.cache id, error := none } },
          remoteCalled := false } := by
      unfold fetchExplanation
      rw [if_pos (by simpa using hc)]
    rw [hsecond]
    exact ⟨rfl, ne_none_of_strTruthy hc, by simp, rfl⟩
  · -- first call misses, calls the remote, stores the non-empty result
    obtain ⟨q, hfq⟩ := Option.ne_none_iff_exists'.mp hq
    have hfirst : fetchExplanation env questions st id false =
        { state := { cache := fun i => if i = id then some r else st.cache i,
                     explanation := { loading := false, content := some r, error := none } },
          remoteCalled := true } := by
      unfold fetchExplanation
      rw [if_neg (by simpa using hc), hfq, henv]
    rw [hfirst]
    have hhit : strTruthy ((fun i => if i = id then some r else st.cache i) id) = true := by
      simpa using strTruthy_some_of_ne hr
    have hsecond : fetchExplanation env questions
        { cache := fun i => if i = id then some r else st.cache i,
          explanation := { loading := false, content := some r, error := none } }
        id false =
        { state :=
            { cache := fun i => if i = id then some r else st.cache i,
              explanation :=
                { loading := false,
                  content := (fun i => if i = id then some r else st.cache i) id,
                  error := none } },
          remoteCalled := false } := by
      unfold fetchExplanation
      rw [if_pos (by simpa using hhit)]
    rw [hsecond]
    refine ⟨rfl, by simp, fun _ => by simp, by simp⟩

/-- Witness for C1 at a concrete environment: question 1 present, remote
success `"hello"`, empty initial cache. -/
theorem fetchExplanation_second_call_cached_witness :
    findQuestion [⟨1, "Q1", .QUANTUM, none⟩] 1 ≠ none ∧
    (generateExplanation ⟨⟨none, some "k"⟩, .ok (some "hello"), .ok none⟩).result = .ok "hello" ∧
    (fetchExplanation ⟨⟨none, some "k"⟩, .ok (some "hello"), .ok none⟩ [⟨1, "Q1", .QUANTUM, none⟩]
        (fetchExplanation ⟨⟨none, some "k"⟩, .ok (some "hello"), .ok none⟩ [⟨1, "Q1", .QUANTUM, none⟩]
          ⟨fun _ => none, initialExplanationState⟩ 1 false).state 1 false).remoteCalled = false :=
  ⟨by decide, rfl,
   (fetchExplanation_second_call_cached ⟨⟨none, some "k"⟩, .ok (some "hello"), .ok none⟩
      [⟨1, "Q1", .QUANTUM, none⟩] ⟨fun _ => none, initialExplanationState⟩ 1 "hello"
      (by decide) rfl).1⟩

/-- Claim C6: `fetchExplanation` with `force = true` bypasses the cache —
it issues a remote call even when an entry for the id exists — and on
success overwrites the previously cached value with the new result. -/
theorem fetchExplanation_force_refresh (env : GenAiEnv) (questions : List Question)
    (st : AppState) (id : Nat) (old r : String)
    (hq : findQuestion questions id ≠ none)
    (_hold : st.cache id = some old)
    (henv : (generateExplanation env).result = .ok r) :
    (fetchExplanation env questions st id true).remoteCalled = true ∧
    (fetchExplanation env questions st id true).state.cache id = some r ∧
    (fetchExplanation env questions st id true).state.explanation =
      { loading := false, content := some r, error := none } := by
  obtain ⟨q, hfq⟩ := Option.ne_none_iff_exists'.mp hq
  have hrun : fetchExplanation env questions st id true =
      { state := { cache := fun i => if i = id then some r else st.cache i,
                   explanation := { loading := false, content := some r, error := none } },
        remoteCalled := true } := by
    unfold fetchExplanation
    rw [if_neg (by simp), hfq, henv]
  rw [hrun]
  exact ⟨rfl, by simp, rfl⟩

/-- Witness for C6 at a concrete state whose cache already holds `"stale"`
for question 1; the forced refresh stores `"fresh"`. -/
theorem fetchExplanation_force_refresh_witness :
    (fetchExplanation ⟨⟨none, some "k"⟩, .ok (some "fresh"), .ok none⟩ [⟨1, "Q1", .QUANTUM, none⟩]
        ⟨fun i => if i = 1 then some "stale" else none, initialExplanationState⟩ 1 true).state.cache 1
      = some "fresh" :=
  (fetchExplanation_force_refresh ⟨⟨none, some "k"⟩, .ok (some "fresh"), .ok none⟩
      [⟨1, "Q1", .QUANTUM, none⟩]
      ⟨fun i => if i = 1 then some "stale" else none, initialExplanationState⟩ 1 "stale" "fresh"
      (by decide) (by decide) rfl).2.1

/-- Claim C10: when the remote call succeeds with an absent or empty
response text, `generateExplanation` resolves successfully with the fixed
placeholder `"Ошибка получения ответа."`; the caller writes that
placeholder into the explanation cache and displays it as content, not as
an error. -/
theorem empty_response_placeholder_success (env : GenAiEnv) (questions : List Question)
    (st : AppState) (id : Nat) (t : Option String)
    (hk : getStoredApiKey env.keys ≠ "")
    (hp : env.primaryOutcome = .ok t)
    (ht : strTruthy t = false)
    (hq : findQuestion questions id ≠ none)
    (hmiss : strTruthy (st.cache id) = false) :
    (generateExplanation env).result = .ok "Ошибка получения ответа." ∧
    (fetchExplanation env questions st id false).remoteCalled = true ∧
    (fetchExplanation env questions st id false).state.cache id
      = some "Ошибка получения ответа." ∧
    (fetchExplanation env questions st id false).state.explanation =
      { loading := false, content := some "Ошибка получения ответа.", error := none } := by
  have hgen : (generateExplanation env).result = .ok "Ошибка получения ответа." := by
    unfold generateExplanation
    rw [if_neg hk, hp]
    simp [jsOrElse_of_falsy ht]
  obtain ⟨q, hfq⟩ := Option.ne_none_iff_exists'.mp hq
  have hrun : fetchExplanation env questions st id false =
      { state :=
          { cache := fun i => if i = id then some "Ошибка получения ответа." else st.cache i,
            explanation :=
              { loading := false,
                content := some "Ошибка получения ответа.", error := none } },
        remoteCalled := true } := by
    unfold fetchExplanation
    rw [if_neg (by simpa using hmiss), hfq, hgen]
  rw [hrun]
  exact ⟨hgen, rfl, by simp, rfl⟩

/-- Witness for C10 at a concrete environment whose primary response has an
empty text. -/
theorem empty_response_placeholder_success_witness :
    (generateExplanation ⟨⟨none, some "k"⟩, .ok (some ""), .ok none⟩).result
      = .ok "Ошибка получения ответа." ∧
    (fetchExplanation ⟨⟨none, some "k"⟩, .ok (some ""), .ok none⟩ [⟨1, "Q1", .QUANTUM, none⟩]
        ⟨fun _ => none, initialExplanationState⟩ 1 false).state.cache 1
      = some "Ошибка получения ответа." :=
  ⟨(empty_response_placeholder_success ⟨⟨none, some "k"⟩, .ok (some ""), .ok none⟩
      [⟨1, "Q1", .QUANTUM, none⟩] ⟨fun _ => none, initialExplanationState⟩ 1 (some "")
      (by decide) rfl (by decide) (by decide) (by decide)).1,
   (empty_response_placeholder_success ⟨⟨none, some "k"⟩, .ok (some ""), .ok none⟩
      [⟨1, "Q1", .QUANTUM, none⟩] ⟨fun _ => none, initialExplanationState⟩ 1 (some "")
      (by decide) rfl (by decide) (by decide) (by decide)).2.2.1⟩

/-- The two questions of the stale-response scenario. -/
def staleTraceQuestions : List Question :=
  [⟨1, "Question one", .OSCILLATIONS, none⟩, ⟨2, "Question two", .OSCILLATIONS, none⟩]

/-- The interleaving of C7's scenario: question 1 is selected (its fetch
becomes outstanding), question 2 is selected while 1 is still outstanding,
question 2's fetch resolves, and finally question 1's stale fetch
resolves. -/
def staleTrace : List UiEvent :=
  [.select 1, .select 2, .resolveOk 2 "explanation for 2", .resolveOk 1 "explanation for 1"]

/-- Claim C7 fails on the code: after the stale-response interleaving the
selected question is 2, yet the displayed explanation content is question
1's late-arriving result — the resolution continuation never compares the
resolved id with `selectedId`. -/
theorem stale_response_overwrites_selected_view :
    (runEvents staleTraceQuestions sysInit staleTrace).selectedId = some 2 ∧
    (runEvents staleTraceQuestions sysInit staleTrace).explanation =
      { loading := false, content := some "explanation for 1", error := none } ∧
    (runEvents staleTraceQuestions sysInit staleTrace).cache 2 = some "explanation for 2" ∧
    (runEvents staleTraceQuestions sysInit staleTrace).explanation.content ≠
      (runEvents staleTraceQuestions sysInit staleTrace).cache 2 := by
  refine ⟨rfl, by decide, by decide, by decide⟩

/-- Claim C4: `generateAudioExplanation` is a two-stage pipeline with no
partial credit — when the script stage returns an absent or empty text, the
call fails with the classified connectivity-class error before any TTS call
is made and the audio cache entry for the question stays unset; moreover,
for every run whatsoever, the audio cache entry changes only when a
non-empty audio payload was obtained and returned. -/
theorem generateAudioExplanation_two_stage_gate (env : AudioEnv)
    (cache : Nat → Option String) (q : Question) (t : Option String)
    (hmiss : cache q.id = none)
    (hk : getStoredApiKey env.keys ≠ "")
    (hs : env.scriptOutcome = .ok t)
    (ht : strTruthy t = false) :
    ((generateAudioExplanation env cache q).ttsCalled = false ∧
     (generateAudioExplanation env cache q).result =
       .error "Ошибка соединения с AI. Проверьте интернет или VPN." ∧
     (generateAudioExplanation env cache q).cache q.id = none) ∧
    (∀ (env2 : AudioEnv) (c2 : Nat → Option String) (q2 : Question),
      (generateAudioExplanation env2 c2 q2).cache q2.id = c2 q2.id ∨
      ∃ d, (generateAudioExplanation env2 c2 q2).result = .ok d ∧ d ≠ "" ∧
        (generateAudioExplanation env2 c2 q2).cache q2.id = some d) := by
  constructor
  · have hclass : handleApiError env.keys "Error: Failed to generate script" =
        "Ошибка соединения с AI. Проверьте интернет или VPN." := by
      unfold handleApiError
      rw [if_neg hk]
      decide
    have hrun : generateAudioExplanation env cache q =
        { result := .error (handleApiError env.keys "Error: Failed to generate script"),
          cache := cache, scriptCalled := true, ttsCalled := false } := by
      unfold generateAudioExplanation
      rw [hmiss, hs]
      rw [if_neg hk]
      simp [ht]
    rw [hrun, hclass]
    exact ⟨rfl, rfl, hmiss⟩
  · intro env2 c2 q2
    cases hc : c2 q2.id with
    | some cached => left; simp [generateAudioExplanation, hc]
    | none =>
      by_cases hk2 : getStoredApiKey env2.keys = ""
      · left; simp [generateAudioExplanation, hc, hk2]
      · cases hs2 : env2.scriptOutcome with
        | failure e => left; simp [generateAudioExplanation, hc, hk2, hs2]
        | ok t2 =>
          by_cases ht2 : strTruthy t2 = true
          · cases htts : env2.ttsOutcome with
            | failure e => left; simp [generateAudioExplanation, hc, hk2, hs2, ht2, htts]
            | ok candidates =>
              cases candidates with
              | none => left; simp [generateAudioExplanation, hc, hk2, hs2, ht2, htts]
              | some parts =>
                cases parts with
                | nil => left; simp [generateAudioExplanation, hc, hk2, hs2, ht2, htts]
                | cons c rest =>
                  by_cases hd : strTruthy (candidateAudioData c) = true
                  · right
                    refine ⟨(candidateAudioData c).getD "", ?_,
                      getD_ne_empty_of_strTruthy hd, ?_⟩
                    · simp [generateAudioExplanation, hc, hk2, hs2, ht2, htts, hd]
                    · simp [generateAudioExplanation, hc, hk2, hs2, ht2, htts, hd]
                  · left
                    simp [generateAudioExplanation, hc, hk2, hs2, ht2, htts,
                      Bool.not_eq_true] at hd ⊢
                    simp [hd, hc]
          · left
            simp [generateAudioExplanation, Bool.not_eq_true] at ht2
            simp [generateAudioExplanation, hc, hk2, hs2, ht2]

/-- Witness for C4 at a concrete environment whose script stage returns an
empty string. -/
theorem generateAudioExplanation_two_stage_gate_witness :
    (generateAudioExplanation ⟨⟨none, some "k"⟩, .ok (some ""), .ok none⟩ (fun _ => none)
        ⟨3, "Q3", .QUANTUM, none⟩).ttsCalled = false ∧
    (generateAudioExplanation ⟨⟨none, some "k"⟩, .ok (some ""), .ok none⟩ (fun _ => none)
        ⟨3, "Q3", .QUANTUM, none⟩).cache 3 = none :=
  ⟨(generateAudioExplanation_two_stage_gate ⟨⟨none, some "k"⟩, .ok (some ""), .ok none⟩
      (fun _ => none) ⟨3, "Q3", .QUANTUM, none⟩ (some "")
      rfl (by decide) rfl (by decide)).1.1,
   (generateAudioExplanation_two_stage_gate ⟨⟨none, some "k"⟩, .ok (some ""), .ok none⟩
      (fun _ => none) ⟨3, "Q3", .QUANTUM, none⟩ (some "")
      rfl (by decide) rfl (by decide)).1.2.2⟩

/-! ## Audio decoder lemmas -/

theorem pairBytes_length : ∀ l : List Nat, (pairBytes l).length = l.length / 2
  | [] => rfl
  | [x] => by
    have hx : pairBytes [x] = [] := rfl
    simp [hx]
  | lo :: hi :: rest => by
    have ih := pairBytes_length rest
    simp only [pairBytes, List.length_cons, ih]
    omega

theorem pairBytes_getD : ∀ (l : List Nat) (i : Nat), i < l.length / 2 →
    (pairBytes l).getD i (0, 0) = (l.getD (2 * i) 0, l.getD (2 * i + 1) 0)
  | [], i, h => by simp at h
  | [_], i, h => by
    simp only [List.length_singleton] at h
    omega
  | lo :: hi :: rest, 0, _ => by simp [pairBytes]
  | lo :: hi :: rest, i + 1, h => by
    have hlt : i < rest.length / 2 := by
      simp only [List.length_cons] at h
      omega
    have ih := pairBytes_getD rest i hlt
    have h2 : 2 * (i + 1) = 2 * i + 1 + 1 := by ring
    calc (pairBytes (lo :: hi :: rest)).getD (i + 1) (0, 0)
        = (pairBytes rest).getD i (0, 0) := by simp [pairBytes]
      _ = (rest.getD (2 * i) 0, rest.getD (2 * i + 1) 0) := ih
      _ = ((lo :: hi :: rest).getD (2 * (i + 1)) 0,
            (lo :: hi :: rest).getD (2 * (i + 1) + 1) 0) := by
            rw [h2]
            simp [List.getD_cons_succ]

theorem mem_pairBytes : ∀ {l : List Nat} {p : Nat × Nat},
    p ∈ pairBytes l → p.1 ∈ l ∧ p.2 ∈ l
  | [], p, h => by simp [pairBytes] at h
  | [_], p, h => by simp [pairBytes] at h
  | lo :: hi :: rest, p, h => by
    rcases List.mem_cons.mp h with h1 | h2
    · subst h1
      exact ⟨List.mem_cons_self _ _, List.mem_cons_of_mem _ (List.mem_cons_self _ _)⟩
    · have ih := mem_pairBytes h2
      exact ⟨List.mem_cons_of_mem _ (List.mem_cons_of_mem _ ih.1),
             List.mem_cons_of_mem _ (List.mem_cons_of_mem _ ih.2)⟩

theorem decodeBase64_mem_lt {cs : List Nat} {b : Nat} (hb : b ∈ decodeBase64 cs) :
    b < 256 := by
  obtain ⟨c, -, rfl⟩ := List.mem_map.mp hb
  exact Nat.mod_lt _ (by norm_num)

theorem int16FromBytes_bounds {lo hi : Nat} (hlo : lo < 256) (hhi : hi < 256) :
    -32768 ≤ int16FromBytes lo hi ∧ int16FromBytes lo hi < 32768 := by
  unfold int16FromBytes
  split <;> omega

theorem getD_map_div (pairs : List (Nat × Nat)) (i : Nat) (hi : i < pairs.length) :
    ((pairs.map (fun p => int16FromBytes p.1 p.2)).map (fun (v : Int) => (v : ℚ) / 32768)).getD i 0
      = (int16FromBytes (pairs.getD i (0, 0)).1 (pairs.getD i (0, 0)).2 : ℚ) / 32768 := by
  induction pairs generalizing i with
  | nil => simp at hi
  | cons p ps ih =>
    cases i with
    | zero => simp
    | succ n => simpa using ih n (by simpa using hi)

theorem sample_in_unit_range {v : Int} (h1 : -32768 ≤ v) (h2 : v < 32768) :
    -1 ≤ (v : ℚ) / 32768 ∧ (v : ℚ) / 32768 < 1 := by
  have h32 : (0 : ℚ) < 32768 := by norm_num
  constructor
  · rw [le_div_iff₀ h32]
    have hv : (-32768 : ℚ) ≤ (v : ℚ) := by exact_mod_cast h1
    linarith
  · rw [div_lt_one h32]
    exact_mod_cast h2

/-- Counterexample to C2 as stated: a payload decoding to a single byte has
an odd decoded byte count, yet the program raises — the trailing byte is
dropped, `frameCount` is 0, and `createBuffer(1, 0, 24000)` throws
`NotSupportedError`. -/
theorem processAudioData_raises_on_one_byte :
    [(0 : Nat)].length % 2 = 1 ∧
    processAudioData [0] = .error "NotSupportedError" :=
  ⟨rfl, rfl⟩

/-- Claim C2 (amended): for every input decoding to at least 2 bytes,
`processAudioData` succeeds deterministically; its buffer has one channel,
sample rate 24000, exactly `floor (byteCount / 2)` samples (an odd trailing
byte is dropped without raising), and sample `i` is the `i`-th
little-endian signed 16-bit value divided by 32768, so every sample lies in
`[-1, 1)`.  Below 2 decoded bytes the frame count is 0 and `createBuffer`
throws. -/
theorem processAudioData_decoder_contract (cs : List Nat) (hcs : 2 ≤ cs.length) :
    ∃ buf, processAudioData cs = .ok buf ∧
      buf.numberOfChannels = 1 ∧
      buf.sampleRate = 24000 ∧
      buf.channelData.length = cs.length / 2 ∧
      (∀ i, i < cs.length / 2 →
        buf.channelData.getD i 0 =
          (int16FromBytes ((decodeBase64 cs).getD (2 * i) 0)
            ((decodeBase64 cs).getD (2 * i + 1) 0) : ℚ) / 32768) ∧
      (∀ s ∈ buf.channelData, -1 ≤ s ∧ s < 1) := by
  have hblen : (decodeBase64 cs).length = cs.length := by
    simp [decodeBase64]
  have hframe : ((pairBytes (decodeBase64 cs)).map
      (fun p => int16FromBytes p.1 p.2)).length ≠ 0 := by
    simp only [List.length_map, pairBytes_length, hblen]
    omega
  have hrun : processAudioData cs = .ok
      { numberOfChannels := 1, sampleRate := 24000,
        channelData := ((pairBytes (decodeBase64 cs)).map
          (fun p => int16FromBytes p.1 p.2)).map (fun (v : Int) => (v : ℚ) / 32768) } := by
    simp only [processAudioData, createBuffer]
    rw [if_neg hframe]
  refine ⟨_, hrun, rfl, rfl, ?_, ?_, ?_⟩
  · simp [pairBytes_length, hblen]
  · intro i hi
    have hplen : i < (pairBytes (decodeBase64 cs)).length := by
      rw [pairBytes_length, hblen]
      exact hi
    have hpair : (pairBytes (decodeBase64 cs)).getD i (0, 0) =
        ((decodeBase64 cs).getD (2 * i) 0, (decodeBase64 cs).getD (2 * i + 1) 0) := by
      rw [pairBytes_getD]
      rw [hblen]
      exact hi
    have hmap := getD_map_div (pairBytes (decodeBase64 cs)) i hplen
    rw [hmap, hpair]
  · intro s hs
    simp only [List.mem_map] at hs
    obtain ⟨v, ⟨p, hp, rfl⟩, rfl⟩ := hs
    have hm := mem_pairBytes hp
    have hb := int16FromBytes_bounds (decodeBase64_mem_lt hm.1) (decodeBase64_mem_lt hm.2)
    exact sample_in_unit_range hb.1 hb.2

/-- Witness for C2 (amended) at a concrete five-byte payload:
`[0, 128, 255, 127, 1]` has at least 2 bytes, decodes successfully to two
samples (the trailing byte dropped). -/
theorem processAudioData_decoder_contract_witness :
    2 ≤ [(0 : Nat), 128, 255, 127, 1].length ∧
    ∃ buf, processAudioData [0, 128, 255, 127, 1] = .ok buf ∧
      buf.numberOfChannels = 1 ∧ buf.channelData.length = 2 :=
  ⟨by decide, by
    obtain ⟨buf, hok, hch, -, hlen, -, -⟩ :=
      processAudioData_decoder_contract [0, 128, 255, 127, 1] (by decide)
    exact ⟨buf, hok, hch, by simpa using hlen⟩⟩

end PhysicsAI
